import Mathlib

/-!
Shallow embedding of the TarefAuto Record/Replay engine core
(src/core/events.py, src/core/player.py, src/core/recorder.py,
src/core/hotkeys.py).

Python floats are modelled as exact rationals (ℚ), Python dicts of the
serialization layer as records of optional fields (one field per key the
code reads or writes), and raised exceptions as `Except String` errors.
-/

/-- Model of `EventType` enumeration from events.py: the five kinds of captured
input events. -/
inductive EventType
  | MOUSE_MOVE
  | MOUSE_CLICK
  | MOUSE_SCROLL
  | KEY_PRESS
  | KEY_RELEASE
deriving DecidableEq, Repr

/-- Model of `member.name` of the Python `EventType` enum (used by `to_dict`). -/
def EventType.name : EventType → String
  | .MOUSE_MOVE => "MOUSE_MOVE"
  | .MOUSE_CLICK => "MOUSE_CLICK"
  | .MOUSE_SCROLL => "MOUSE_SCROLL"
  | .KEY_PRESS => "KEY_PRESS"
  | .KEY_RELEASE => "KEY_RELEASE"

/-- Lookup `EventType[s]` from events.py line 287: `none` models the
`KeyError` raised by the Python enum on an unknown member name. -/
def EventType.ofName (s : String) : Option EventType :=
  if s = "MOUSE_MOVE" then some .MOUSE_MOVE
  else if s = "MOUSE_CLICK" then some .MOUSE_CLICK
  else if s = "MOUSE_SCROLL" then some .MOUSE_SCROLL
  else if s = "KEY_PRESS" then some .KEY_PRESS
  else if s = "KEY_RELEASE" then some .KEY_RELEASE
  else none

/-- Model of `InputEvent` dataclass from events.py: a single captured action.
Optional fields default to `none` exactly as the dataclass defaults
them to `None`. -/
structure InputEvent where
  timestamp : ℚ
  event_type : EventType
  x : Option ℤ := none
  y : Option ℤ := none
  button : Option String := none
  pressed : Option Bool := none
  key : Option String := none
  dx : Option ℤ := none
  dy : Option ℤ := none
deriving DecidableEq, Repr

/-- The dictionary produced by `InputEvent.to_dict` / consumed by
`InputEvent.from_dict`: one optional field per short key the code reads
or writes (`none` = key absent from the dict). -/
structure EventDict where
  t : Option ℚ := none
  type_ : Option String := none
  x : Option ℤ := none
  y : Option ℤ := none
  btn : Option String := none
  pressed : Option Bool := none
  key : Option String := none
  dx : Option ℤ := none
  dy : Option ℤ := none
deriving DecidableEq, Repr

/-- Model of `InputEvent.to_dict` (events.py lines 196-253): always writes `t` and
`type`, and each optional field only when it is not `None`. -/
def InputEvent.to_dict (e : InputEvent) : EventDict :=
  { t := some e.timestamp
    type_ := some e.event_type.name
    x := e.x
    y := e.y
    btn := e.button
    pressed := e.pressed
    key := e.key
    dx := e.dx
    dy := e.dy }

/-- Model of `InputEvent.from_dict` (events.py lines 255-301).  The Python code
evaluates `EventType[data["type"]]` first (KeyError when `type` is
absent or names no member) and then reads `data["t"]` (KeyError when
absent); all other fields use `.get` and default to `None`. -/
def InputEvent.from_dict (d : EventDict) : Except String InputEvent :=
  match d.type_ with
  | none => .error "KeyError: type"
  | some tname =>
    match EventType.ofName tname with
    | none => .error ("KeyError: " ++ tname)
    | some ty =>
      match d.t with
      | none => .error "KeyError: t"
      | some ts =>
        .ok { timestamp := ts
              event_type := ty
              x := d.x
              y := d.y
              button := d.btn
              pressed := d.pressed
              key := d.key
              dx := d.dx
              dy := d.dy }

/-- Model of `RecordingSession` dataclass from events.py (fields in source
order; `created_at` is a caller-supplied ISO string). -/
structure RecordingSession where
  events : List InputEvent := []
  created_at : String := ""
  record_mouse : Bool := true
  record_keyboard : Bool := true
  version : String := "1.0.0"
  name : String := "Gravação sem nome"
  description : String := ""
deriving DecidableEq, Repr

/-- Model of `RecordingSession.add_event` (events.py line 369). -/
def RecordingSession.add_event (s : RecordingSession) (e : InputEvent) :
    RecordingSession :=
  { s with events := s.events ++ [e] }

/-- Model of `RecordingSession.get_duration` (events.py lines 407-428): the
timestamp of `events[-1]`, or `0.0` for an empty list. -/
def RecordingSession.get_duration (s : RecordingSession) : ℚ :=
  match s.events.getLast? with
  | none => 0
  | some e => e.timestamp

/-- The nested `settings` object of the session dictionary. -/
structure SettingsDict where
  record_mouse : Option Bool := none
  record_keyboard : Option Bool := none
deriving DecidableEq, Repr

/-- The dictionary produced by `RecordingSession.to_dict` / consumed by
`RecordingSession.from_dict` (`none` = key absent). -/
structure SessionDict where
  version : Option String := none
  name : Option String := none
  description : Option String := none
  created_at : Option String := none
  settings : Option SettingsDict := none
  events : Option (List EventDict) := none
deriving DecidableEq, Repr

/-- Model of `RecordingSession.to_dict` (events.py lines 430-456). -/
def RecordingSession.to_dict (s : RecordingSession) : SessionDict :=
  { version := some s.version
    name := some s.name
    description := some s.description
    created_at := some s.created_at
    settings := some { record_mouse := some s.record_mouse
                       record_keyboard := some s.record_keyboard }
    events := some (s.events.map InputEvent.to_dict) }

/-- The list comprehension `[InputEvent.from_dict(e) for e in ...]`
(events.py line 482): deserializes events left to right, propagating
the first raised error. -/
def eventsFromDicts : List EventDict → Except String (List InputEvent)
  | [] => .ok []
  | d :: rest =>
    match InputEvent.from_dict d with
    | .error e => .error e
    | .ok ev =>
      match eventsFromDicts rest with
      | .error e => .error e
      | .ok evs => .ok (ev :: evs)

/-- Model of `RecordingSession.from_dict` (events.py lines 458-493).  Every
metadata key is read with `.get` and a default; `now` stands for the
`datetime.now().isoformat()` value used as the `created_at` default. -/
def RecordingSession.from_dict (now : String) (d : SessionDict) :
    Except String RecordingSession :=
  let settings := d.settings.getD {}
  match eventsFromDicts (d.events.getD []) with
  | .error e => .error e
  | .ok evs =>
    .ok { version := d.version.getD "1.0.0"
          name := d.name.getD "Gravação sem nome"
          description := d.description.getD ""
          created_at := d.created_at.getD now
          record_mouse := settings.record_mouse.getD true
          record_keyboard := settings.record_keyboard.getD true
          events := evs }

/-- Model of `RecordingSession.load` (events.py lines 539-573).  The argument
models the outcome of `open` + `json.load`: `.error` is a raised I/O or
JSON parse exception.  The whole body sits in `try/except Exception`,
so any error — including one raised inside `from_dict` — becomes
`None`. -/
def RecordingSession.load (now : String)
    (readResult : Except String SessionDict) : Option RecordingSession :=
  match readResult with
  | .error _ => none
  | .ok d =>
    match RecordingSession.from_dict now d with
    | .error _ => none
    | .ok s => some s

/-- The spec's field-population invariant (spec.md §3): exactly the
fields relevant to the kind are populated, `pressed` being `true` for
`KeyDown` and `false` for `KeyUp`. -/
def InputEvent.WellFormed (e : InputEvent) : Prop :=
  match e.event_type with
  | .MOUSE_MOVE =>
    e.x.isSome = true ∧ e.y.isSome = true ∧ e.button = none ∧
    e.pressed = none ∧ e.key = none ∧ e.dx = none ∧ e.dy = none
  | .MOUSE_CLICK =>
    e.x.isSome = true ∧ e.y.isSome = true ∧ e.button.isSome = true ∧
    e.pressed.isSome = true ∧ e.key = none ∧ e.dx = none ∧ e.dy = none
  | .MOUSE_SCROLL =>
    e.x.isSome = true ∧ e.y.isSome = true ∧ e.button = none ∧
    e.pressed = none ∧ e.key = none ∧ e.dx.isSome = true ∧ e.dy.isSome = true
  | .KEY_PRESS =>
    e.x = none ∧ e.y = none ∧ e.button = none ∧ e.pressed = some true ∧
    e.key.isSome = true ∧ e.dx = none ∧ e.dy = none
  | .KEY_RELEASE =>
    e.x = none ∧ e.y = none ∧ e.button = none ∧ e.pressed = some false ∧
    e.key.isSome = true ∧ e.dx = none ∧ e.dy = none

instance (e : InputEvent) : Decidable e.WellFormed := by
  unfold InputEvent.WellFormed
  cases e.event_type <;> infer_instance

/-- Python `s.lower()` (ASCII), computed character by character. -/
def pyLower (s : String) : String :=
  String.mk (s.toList.map Char.toLower)

/-- Python `s.strip()`: drop leading and trailing whitespace. -/
def pyStrip (s : String) : String :=
  String.mk
    (((s.toList.dropWhile Char.isWhitespace).reverse.dropWhile
        Char.isWhitespace).reverse)

/-- The split step of Python `s.split(sep)` for a one-character
separator, over the character list. -/
def splitCharsAux (sep : Char) : List Char → List Char → List (List Char)
  | [], acc => [acc.reverse]
  | c :: rest, acc =>
    if c = sep then acc.reverse :: splitCharsAux sep rest []
    else splitCharsAux sep rest (c :: acc)

/-- Python `s.split(sep)` for a one-character separator. -/
def pySplit (sep : Char) (s : String) : List String :=
  (splitCharsAux sep s.toList []).map String.mk

/-- Python `s.startswith(p)`. -/
def pyStartsWith (p s : String) : Bool :=
  p.toList.isPrefixOf s.toList

/-- Python `s.endswith(p)`. -/
def pyEndsWith (p s : String) : Bool :=
  p.toList.reverse.isPrefixOf s.toList.reverse

/-- Python `s[0]` (callers guard against the empty string). -/
def pyFirstChar (s : String) : Char :=
  s.toList.headD ' '

/-- Model of `LoopMode` enumeration from player.py. -/
inductive LoopMode
  | SINGLE
  | COUNT
  | DURATION
  | INFINITE
deriving DecidableEq, Repr

/-- Model of `pynput.mouse.Button` values the player can inject. -/
inductive MouseButton
  | left
  | right
  | middle
deriving DecidableEq, Repr

/-- A resolved pynput key object: `keyboard.Key.<name>` or
`KeyCode.from_char(c)`. -/
inductive PyKeyObj
  | special (nm : String)
  | char (c : Char)
deriving DecidableEq, Repr

/-- The member names of the external `pynput.keyboard.Key` enum, used by
`Key[key_str]` lookups in `Player._get_keyboard_key`.  Modelled from the
pynput library (external collaborator). -/
def pynputKeyNames : List String :=
  ["alt", "alt_l", "alt_r", "alt_gr", "backspace", "caps_lock",
   "cmd", "cmd_l", "cmd_r", "ctrl", "ctrl_l", "ctrl_r", "delete",
   "down", "end", "enter", "esc", "f1", "f2", "f3", "f4", "f5", "f6",
   "f7", "f8", "f9", "f10", "f11", "f12", "f13", "f14", "f15", "f16",
   "f17", "f18", "f19", "f20", "home", "insert", "left", "media_next",
   "media_play_pause", "media_previous", "media_volume_down",
   "media_volume_mute", "media_volume_up", "menu", "num_lock",
   "page_down", "page_up", "pause", "print_screen", "right",
   "scroll_lock", "shift", "shift_l", "shift_r", "space", "tab", "up"]

/-- The mutable state of a `Player` (player.py lines 151-244).  The
pynput controllers are external; `playback_thread` records whether a
replay thread has been spawned by `play`. -/
structure Player where
  is_playing : Bool := false
  loop_mode : LoopMode := .SINGLE
  loop_value : ℚ := 1
  speed_multiplier : ℚ := 1
  session : Option RecordingSession := none
  playback_thread : Bool := false
  stop_flag : Bool := false
  loops_completed : ℕ := 0
  events_played : ℕ := 0
  current_loop : ℕ := 0
deriving DecidableEq, Repr

/-- Model of `Player.set_loop_mode` (player.py lines 246-273). -/
def Player.set_loop_mode (p : Player) (mode : LoopMode) (value : ℚ) :
    Player :=
  { p with loop_mode := mode, loop_value := value }

/-- Model of `Player.set_speed` (player.py lines 275-297): clamps the multiplier
to `[0.1, 10.0]`. -/
def Player.set_speed (p : Player) (multiplier : ℚ) : Player :=
  { p with speed_multiplier := max (1/10) (min 10 multiplier) }

/-- Model of `Player._get_mouse_button` (player.py lines 354-381):
`button_map.get(button_name.lower(), Button.left)`. -/
def Player.get_mouse_button (button_name : String) : MouseButton :=
  let k := pyLower button_name
  if k = "left" then .left
  else if k = "right" then .right
  else if k = "middle" then .middle
  else .left

/-- Model of `Player._get_keyboard_key` (player.py lines 383-426): try
`Key[key_str]`, then `Key[key_str.lower()]`, then a single-character
`KeyCode`, then the first character, with `Key.space` for the empty
string. -/
def Player.get_keyboard_key (key_str : String) : PyKeyObj :=
  if pynputKeyNames.contains key_str then .special key_str
  else if pynputKeyNames.contains (pyLower key_str) then .special (pyLower key_str)
  else if key_str.length = 1 then .char (pyFirstChar key_str)
  else if key_str ≠ "" then .char (pyFirstChar key_str)
  else .special "space"

/-- One call into the external injection capability (the pynput
controllers used by `Player._execute_event`). -/
inductive Injection
  | set_position (x y : Option ℤ)
  | press_button (b : MouseButton)
  | release_button (b : MouseButton)
  | scroll_by (dx dy : Option ℤ)
  | press_key (k : PyKeyObj)
  | release_key (k : PyKeyObj)
deriving DecidableEq, Repr

/-- Model of `Player._execute_event` (player.py lines 299-352), as the sequence
of injection calls it performs.  `.error` models the exceptions Python
raises when a `MOUSE_CLICK` event has `button=None`
(`None.lower()` → AttributeError) or a key event has `key=None`
(`len(None)` → TypeError); `if event.pressed:` treats `None` and
`False` alike, so only `some true` presses. -/
def Player.execute_event (e : InputEvent) : Except String (List Injection) :=
  match e.event_type with
  | .MOUSE_MOVE => .ok [.set_position e.x e.y]
  | .MOUSE_CLICK =>
    match e.button with
    | none => .error "AttributeError"
    | some bn =>
      let b := Player.get_mouse_button bn
      .ok [.set_position e.x e.y,
           if e.pressed = some true then .press_button b
           else .release_button b]
  | .MOUSE_SCROLL => .ok [.set_position e.x e.y, .scroll_by e.dx e.dy]
  | .KEY_PRESS =>
    match e.key with
    | none => .error "TypeError"
    | some ks => .ok [.press_key (Player.get_keyboard_key ks)]
  | .KEY_RELEASE =>
    match e.key with
    | none => .error "TypeError"
    | some ks => .ok [.release_key (Player.get_keyboard_key ks)]

/-- Model of `Player.play` (player.py lines 582-634): refuse when already
playing or when the session has no events, otherwise store the session,
clear the stop flag, mark playing and spawn the replay thread. -/
def Player.play (p : Player) (s : RecordingSession) : Player × Bool :=
  if p.is_playing then (p, false)
  else if s.events.isEmpty then (p, false)
  else ({ p with session := some s
                 stop_flag := false
                 is_playing := true
                 playback_thread := true }, true)

/-- One pass of the inner `for` loop of `Player._playback_loop`
(player.py lines 510-563) with the stop flag never set and a
non-`DURATION` mode, returning for each event in order the time waited
before its dispatch and the event itself.  `prev` is `prev_timestamp`
(reset to `0.0` at the start of each pass); the code computes
`delay = event.timestamp - prev_timestamp`, divides by
`speed_multiplier` when that is positive, and sleeps only when the
result is positive. -/
def Player.playback_pass (speed : ℚ) : ℚ → List InputEvent → List (ℚ × InputEvent)
  | _, [] => []
  | prev, e :: rest =>
    let delay := e.timestamp - prev
    let delay := if 0 < speed then delay / speed else delay
    let wait := if 0 < delay then delay else 0
    (wait, e) :: Player.playback_pass speed e.timestamp rest

/-- The outer `while current_loop < max_loops` loop of
`Player._playback_loop` with the stop flag never set, unrolled on the
number of remaining passes (`max_loops - current_loop`). -/
def Player.playback_loop_fuel (speed : ℚ) (events : List InputEvent) :
    ℕ → List (ℚ × InputEvent)
  | 0 => []
  | n + 1 =>
    Player.playback_pass speed 0 events ++
      Player.playback_loop_fuel speed events n

/-- Python `int(q)` on a rational: truncation toward zero. -/
def ratTrunc (q : ℚ) : ℤ :=
  if 0 ≤ q then ⌊q⌋ else ⌈q⌉

/-- The `max_loops` bound computed at player.py lines 466-476: `1` for
`SINGLE`, `int(loop_value)` for `COUNT`, and `float('inf')` (here
`none`) for `DURATION` and `INFINITE`. -/
def Player.max_loops_for : LoopMode → ℚ → Option ℤ
  | .SINGLE, _ => some 1
  | .COUNT, v => some (ratTrunc v)
  | .DURATION, _ => none
  | .INFINITE, _ => none

/-- Model of `Player._playback_loop` (player.py lines 461-580) under a
never-set stop flag, for the bounded modes: the full ordered list of
(wait, event) dispatches.  `none` for the unbounded modes, whose loop
count is not determined by the session alone. -/
def Player.playback_dispatches (speed : ℚ) (mode : LoopMode) (value : ℚ)
    (events : List InputEvent) : Option (List (ℚ × InputEvent)) :=
  (Player.max_loops_for mode value).map
    (fun m => Player.playback_loop_fuel speed events m.toNat)

/-- A pynput key object as seen by listener callbacks: `char` is set for
`KeyCode` keys, `name` for `keyboard.Key` members, and `str_repr`
models the `str(key)` fallback. -/
structure PKey where
  char : Option Char := none
  name : Option String := none
  str_repr : String := ""
deriving DecidableEq, Repr

/-- The mutable state of a `Recorder` (recorder.py lines 106-185). -/
structure Recorder where
  record_mouse : Bool := true
  record_keyboard : Bool := true
  is_recording : Bool := false
  session : RecordingSession := {}
  start_time : ℚ := 0
deriving DecidableEq, Repr

/-- Model of `Recorder._add_event` (recorder.py lines 212-240): append under the
lock, then hand the event to the optional per-event notification
callback.  The second component is the event passed to that callback
(`none` = the callback is not invoked). -/
def Recorder.add_event (r : Recorder) (e : InputEvent) :
    Recorder × Option InputEvent :=
  ({ r with session := r.session.add_event e }, some e)

/-- Model of `Recorder._on_mouse_move` (recorder.py lines 246-281).  `now` is the
`time.time()` value at the callback. -/
def Recorder.on_mouse_move (r : Recorder) (now : ℚ) (x y : ℤ) :
    Recorder × Option InputEvent :=
  if !r.is_recording || !r.record_mouse then (r, none)
  else
    Recorder.add_event r
      { timestamp := now - r.start_time
        event_type := .MOUSE_MOVE
        x := some x
        y := some y }

/-- Model of `Recorder._on_mouse_click` (recorder.py lines 283-323).
`button_name` models `button.name` of the pynput `Button` argument. -/
def Recorder.on_mouse_click (r : Recorder) (now : ℚ) (x y : ℤ)
    (button_name : String) (pressed : Bool) : Recorder × Option InputEvent :=
  if !r.is_recording || !r.record_mouse then (r, none)
  else
    Recorder.add_event r
      { timestamp := now - r.start_time
        event_type := .MOUSE_CLICK
        x := some x
        y := some y
        button := some button_name
        pressed := some pressed }

/-- Model of `Recorder._on_mouse_scroll` (recorder.py lines 325-359). -/
def Recorder.on_mouse_scroll (r : Recorder) (now : ℚ) (x y dx dy : ℤ) :
    Recorder × Option InputEvent :=
  if !r.is_recording || !r.record_mouse then (r, none)
  else
    Recorder.add_event r
      { timestamp := now - r.start_time
        event_type := .MOUSE_SCROLL
        x := some x
        y := some y
        dx := some dx
        dy := some dy }

/-- Model of `Recorder._get_key_string` (recorder.py lines 365-406): the literal
character for `KeyCode` keys, the symbolic name for special keys, and
`str(key)` otherwise. -/
def Recorder.get_key_string (k : PKey) : String :=
  match k.char with
  | some c => String.singleton c
  | none =>
    match k.name with
    | some nm => nm
    | none => k.str_repr

/-- Model of `Recorder._on_key_press` (recorder.py lines 408-440). -/
def Recorder.on_key_press (r : Recorder) (now : ℚ) (k : PKey) :
    Recorder × Option InputEvent :=
  if !r.is_recording || !r.record_keyboard then (r, none)
  else
    Recorder.add_event r
      { timestamp := now - r.start_time
        event_type := .KEY_PRESS
        key := some (Recorder.get_key_string k)
        pressed := some true }

/-- Model of `Recorder._on_key_release` (recorder.py lines 442-469). -/
def Recorder.on_key_release (r : Recorder) (now : ℚ) (k : PKey) :
    Recorder × Option InputEvent :=
  if !r.is_recording || !r.record_keyboard then (r, none)
  else
    Recorder.add_event r
      { timestamp := now - r.start_time
        event_type := .KEY_RELEASE
        key := some (Recorder.get_key_string k)
        pressed := some false }

/-- The mutable state of a `HotkeyManager` (hotkeys.py lines 100-149).
`hotkeys` keeps the registered combination strings in insertion order
(Python dicts preserve it); `pressed` is the `_pressed_keys` set. -/
structure HotkeyManager where
  hotkeys : List String := []
  pressed : Finset String := ∅
  enabled : Bool := false
  processing_enabled : Bool := true

/-- Model of `HotkeyManager._normalize_key` (hotkeys.py lines 151-203). -/
def HotkeyManager.normalize_key (k : PKey) : String :=
  match k.char with
  | some c => pyLower (String.singleton c)
  | none =>
    match k.name with
    | some nm =>
      let n := pyLower nm
      if pyStartsWith "ctrl" n then "<ctrl>"
      else if pyStartsWith "shift" n then "<shift>"
      else if pyStartsWith "alt" n then "<alt>"
      else if pyStartsWith "cmd" n || pyStartsWith "super" n then "<cmd>"
      else if n = "esc" || n = "escape" then "<escape>"
      else "<" ++ n ++ ">"
    | none => pyLower k.str_repr

/-- The `special_keys` set of `HotkeyManager._parse_hotkey`
(hotkeys.py lines 272-279). -/
def hotkeySpecialKeys : List String :=
  ["ctrl", "shift", "alt", "cmd", "super",
   "f1", "f2", "f3", "f4", "f5", "f6", "f7", "f8", "f9", "f10", "f11", "f12",
   "escape", "esc", "enter", "return", "space", "tab",
   "backspace", "delete", "insert", "home", "end", "page_up", "page_down",
   "up", "down", "left", "right", "caps_lock", "num_lock", "scroll_lock",
   "print_screen", "pause", "menu"]

/-- Python `part.strip('<>')`: drop every leading and trailing `<` or
`>` character. -/
def stripAngles (s : String) : String :=
  let isAngle := fun c => c == '<' || c == '>'
  String.mk (((s.toList.dropWhile isAngle).reverse.dropWhile isAngle).reverse)

/-- Model of `HotkeyManager._parse_hotkey` (hotkeys.py lines 248-302): lower the
string, split on `+`, trim each part, and normalize each non-empty part
into the held-token alphabet (special keys get angle brackets, `esc`
becomes `escape`). -/
def HotkeyManager.parse_hotkey (hotkey_str : String) : Finset String :=
  let parts := pySplit '+' (pyLower hotkey_str)
  parts.foldl
    (fun keys part =>
      let part := pyStrip part
      if part ≠ "" then
        let clean := stripAngles part
        if clean ∈ hotkeySpecialKeys then
          let clean := if clean = "esc" then "escape" else clean
          insert ("<" ++ clean ++ ">") keys
        else if pyStartsWith "<" part && pyEndsWith ">" part then
          insert part keys
        else insert part keys
      else keys)
    ∅

/-- The `for hotkey_str, callback in self._hotkeys.items()` loop of
`HotkeyManager._check_hotkeys` (hotkeys.py lines 233-246): the first
combination whose parsed set is non-empty and a subset of the pressed
set fires (returned as `some combo`) and clears the pressed set. -/
def HotkeyManager.check_go : List String → Finset String → Option String × Finset String
  | [], pressed => (none, pressed)
  | h :: rest, pressed =>
    if HotkeyManager.parse_hotkey h ≠ ∅ ∧ HotkeyManager.parse_hotkey h ⊆ pressed
    then (some h, ∅)
    else HotkeyManager.check_go rest pressed

/-- Model of `HotkeyManager._check_hotkeys` (hotkeys.py lines 205-246): a no-op
when `_processing_enabled` is off. -/
def HotkeyManager.check_hotkeys (m : HotkeyManager) :
    Option String × Finset String :=
  if !m.processing_enabled then (none, m.pressed)
  else HotkeyManager.check_go m.hotkeys m.pressed

/-- Model of `HotkeyManager._on_key_press` (hotkeys.py lines 304-331): ignore
keys while the listener is off, otherwise add the normalized token to
the pressed set and scan the registered combinations.  The second
component is the combination whose callback is dispatched (`none` =
no callback invoked). -/
def HotkeyManager.on_key_press (m : HotkeyManager) (k : PKey) :
    HotkeyManager × Option String :=
  if !m.enabled then (m, none)
  else
    let key_str := HotkeyManager.normalize_key k
    let m' := { m with pressed := insert key_str m.pressed }
    let r := HotkeyManager.check_hotkeys m'
    ({ m' with pressed := r.2 }, r.1)

/-- Model of `HotkeyManager._on_key_release` (hotkeys.py lines 333-354). -/
def HotkeyManager.on_key_release (m : HotkeyManager) (k : PKey) :
    HotkeyManager :=
  if !m.enabled then m
  else { m with pressed := m.pressed.erase (HotkeyManager.normalize_key k) }

/-! Concrete fixtures used by the witness theorems. -/

/-- A `MOUSE_MOVE` event at timestamp 0 (the events.py self-test data). -/
def exMoveEvent : InputEvent :=
  { timestamp := 0, event_type := .MOUSE_MOVE, x := some 100, y := some 200 }

/-- A `MOUSE_CLICK` event at timestamp 0.5. -/
def exClickEvent : InputEvent :=
  { timestamp := 1/2, event_type := .MOUSE_CLICK, x := some 100, y := some 200,
    button := some "left", pressed := some true }

/-- A `KEY_PRESS` event at timestamp 1. -/
def exKeyEvent : InputEvent :=
  { timestamp := 1, event_type := .KEY_PRESS, key := some "a",
    pressed := some true }

/-- A session holding one event of each channel, timestamps 0, 0.5, 1. -/
def exSession : RecordingSession :=
  { events := [exMoveEvent, exClickEvent, exKeyEvent]
    created_at := "2026-01-02T10:30:00"
    name := "Teste de Gravação"
    description := "Uma gravação de exemplo" }

/-- A player that is already replaying. -/
def exPlayingPlayer : Player := { is_playing := true }

/-- A recorder that is not recording. -/
def exIdleRecorder : Recorder := { is_recording := false }

/-- A running hotkey manager with `ctrl+shift+r` registered and only
`ctrl` held. -/
def exHkManager : HotkeyManager :=
  { hotkeys := ["<ctrl>+<shift>+r"], pressed := {"<ctrl>"},
    enabled := true, processing_enabled := true }

/-- The left shift key as delivered by the listener. -/
def exShiftKey : PKey := { name := some "shift_l" }

/-- A `MOUSE_CLICK` event whose button name is not a known button. -/
def exWeirdClick : InputEvent :=
  { timestamp := 2, event_type := .MOUSE_CLICK, x := some 10, y := some 20,
    button := some "x2", pressed := some true }

/-- An event dictionary with an unknown kind name (the spec's
`BOGUS_KIND` test). -/
def bogusEventDict : EventDict := { t := some 0, type_ := some "BOGUS_KIND" }

/-! Helper lemmas. -/

theorem EventType.ofName_name (t : EventType) :
    EventType.ofName t.name = some t := by
  cases t <;> rfl

theorem InputEvent.from_dict_to_dict (e : InputEvent) :
    InputEvent.from_dict e.to_dict = .ok e := by
  simp [InputEvent.to_dict, InputEvent.from_dict, EventType.ofName_name]

theorem eventsFromDicts_map (evs : List InputEvent) :
    eventsFromDicts (evs.map InputEvent.to_dict) = .ok evs := by
  induction evs with
  | nil => rfl
  | cons e rest ih =>
    simp [eventsFromDicts, InputEvent.from_dict_to_dict, ih]

/-! Claim theorems. -/

/-- C1: serialization round-trips exactly: `InputEvent.from_dict`
inverts `InputEvent.to_dict` on every event with exactly the fields of
its kind populated, and `RecordingSession.from_dict` inverts
`RecordingSession.to_dict` on every session of such events, preserving
metadata and event order. -/
theorem roundtrip_serialization :
    (∀ e : InputEvent, e.WellFormed →
       InputEvent.from_dict e.to_dict = .ok e) ∧
    (∀ (now : String) (s : RecordingSession),
       (∀ ev ∈ s.events, ev.WellFormed) →
       RecordingSession.from_dict now s.to_dict = .ok s) := by
  constructor
  · intro e _
    exact InputEvent.from_dict_to_dict e
  · intro now s _
    cases s with
    | mk evs ca rm rk v nm d =>
      simp [RecordingSession.from_dict, RecordingSession.to_dict,
            eventsFromDicts_map]

/-- Witness for C1 at concrete inputs. -/
theorem roundtrip_serialization_witness :
    InputEvent.from_dict exClickEvent.to_dict = .ok exClickEvent ∧
    RecordingSession.from_dict "2026-02-03T00:00:00" exSession.to_dict =
      .ok exSession :=
  ⟨roundtrip_serialization.1 exClickEvent (by decide),
   roundtrip_serialization.2 "2026-02-03T00:00:00" exSession (by decide)⟩

/-- C7: a session's duration is the timestamp of its last event, 0 when
it has no events, and 1 when the timestamps are `[0, 0.5, 1]`. -/
theorem session_duration_last_timestamp :
    (∀ s : RecordingSession, s.events = [] → s.get_duration = 0) ∧
    (∀ (s : RecordingSession) (h : s.events ≠ []),
       s.get_duration = (s.events.getLast h).timestamp) ∧
    (∀ s : RecordingSession,
       s.events.map InputEvent.timestamp = [0, 1/2, 1] →
       s.get_duration = 1) := by
  refine ⟨?_, ?_, ?_⟩
  · intro s h
    simp [RecordingSession.get_duration, h]
  · intro s h
    simp [RecordingSession.get_duration,
          List.getLast?_eq_getLast_of_ne_nil h]
  · intro s h
    have h2 : (s.events.map InputEvent.timestamp).getLast? = some 1 := by
      rw [h]; rfl
    rw [List.getLast?_map] at h2
    cases he : s.events.getLast? with
    | none => rw [he] at h2; simp at h2
    | some e =>
      rw [he] at h2
      simp only [Option.map_some'] at h2
      have h3 : e.timestamp = 1 := by exact_mod_cast Option.some.inj h2
      simp [RecordingSession.get_duration, he, h3]

/-- Witness for C7: the fixture session with timestamps 0, 0.5, 1 has
duration 1. -/
theorem session_duration_last_timestamp_witness :
    exSession.get_duration = 1 :=
  session_duration_last_timestamp.2.2 exSession rfl

/-- C2: `play` returns `false` and leaves the player untouched when it
is already playing or the session is empty; otherwise it stores the
session, becomes playing, spawns the replay thread and returns `true`
with all replay counters still untouched (the replay itself has not
run). -/
theorem play_state_transition (p : Player) (s : RecordingSession) :
    ((p.is_playing = true ∨ s.events = []) →
       Player.play p s = (p, false)) ∧
    (p.is_playing = false → s.events ≠ [] →
       (Player.play p s).2 = true ∧
       (Player.play p s).1.is_playing = true ∧
       (Player.play p s).1.session = some s ∧
       (Player.play p s).1.playback_thread = true ∧
       (Player.play p s).1.stop_flag = false ∧
       (Player.play p s).1.events_played = p.events_played ∧
       (Player.play p s).1.loops_completed = p.loops_completed ∧
       (Player.play p s).1.current_loop = p.current_loop ∧
       (Player.play p s).1.loop_mode = p.loop_mode ∧
       (Player.play p s).1.loop_value = p.loop_value ∧
       (Player.play p s).1.speed_multiplier = p.speed_multiplier) := by
  constructor
  · rintro (h | h)
    · simp [Player.play, h]
    · simp [Player.play, h]
  · intro h1 h2
    cases hse : s.events with
    | nil => exact absurd hse h2
    | cons a l => simp [Player.play, h1, hse]

/-- Witness for C2: an already-playing player refuses a non-empty
session unchanged, and an idle player accepts it. -/
theorem play_state_transition_witness :
    Player.play exPlayingPlayer exSession = (exPlayingPlayer, false) ∧
    (Player.play { } exSession).2 = true :=
  ⟨(play_state_transition exPlayingPlayer exSession).1 (Or.inl rfl),
   ((play_state_transition { } exSession).2 rfl (by decide)).1⟩

theorem playback_pass_snd (speed : ℚ) :
    ∀ (prev : ℚ) (events : List InputEvent),
      (Player.playback_pass speed prev events).map Prod.snd = events := by
  intro prev events
  induction events generalizing prev with
  | nil => rfl
  | cons e rest ih => simp [Player.playback_pass, ih]

theorem playback_pass_length (speed prev : ℚ) (events : List InputEvent) :
    (Player.playback_pass speed prev events).length = events.length := by
  have h := congrArg List.length (playback_pass_snd speed prev events)
  simpa using h

theorem playback_loop_fuel_snd (speed : ℚ) (events : List InputEvent) :
    ∀ n : ℕ,
      (Player.playback_loop_fuel speed events n).map Prod.snd =
        (List.replicate n events).flatten := by
  intro n
  induction n with
  | zero => rfl
  | succ m ih =>
    simp [Player.playback_loop_fuel, List.replicate_succ,
          playback_pass_snd, ih]

theorem playback_loop_fuel_length (speed : ℚ) (events : List InputEvent) :
    ∀ n : ℕ,
      (Player.playback_loop_fuel speed events n).length =
        n * events.length := by
  intro n
  induction n with
  | zero => simp [Player.playback_loop_fuel]
  | succ m ih =>
    simp [Player.playback_loop_fuel, playback_pass_length, ih,
          Nat.succ_mul, Nat.add_comm]

/-- C3: with the cancellation signal never set, `SINGLE` replays every
event of a non-empty session exactly once (one pass, N injection
calls), and `COUNT n` with positive `n` replays exactly `n` full passes
(`n * N` injection calls); both modes have a finite bound and so the
dispatch list is defined (the loop terminates). -/
theorem playback_loop_counts (events : List InputEvent) (speed value : ℚ)
    (n : ℕ) (hev : events ≠ []) (hn : 0 < n) :
    (∃ l, Player.playback_dispatches speed .SINGLE value events = some l ∧
       l.map Prod.snd = events ∧ l.length = events.length) ∧
    (∃ l, Player.playback_dispatches speed .COUNT (n : ℚ) events = some l ∧
       l.map Prod.snd = (List.replicate n events).flatten ∧
       l.length = n * events.length) := by
  constructor
  · refine ⟨Player.playback_loop_fuel speed events 1, ?_, ?_, ?_⟩
    · rfl
    · simpa using playback_loop_fuel_snd speed events 1
    · simpa using playback_loop_fuel_length speed events 1
  · have htr : ratTrunc (n : ℚ) = (n : ℤ) := by
      simp [ratTrunc]
    have htn : ((n : ℤ)).toNat = n := Int.toNat_natCast n
    refine ⟨Player.playback_loop_fuel speed events n, ?_, ?_, ?_⟩
    · simp [Player.playback_dispatches, Player.max_loops_for, htr, htn]
    · exact playback_loop_fuel_snd speed events n
    · exact playback_loop_fuel_length speed events n

/-- Witness for C3: one pass over the three fixture events, and three
passes (nine dispatches) for `COUNT 3`. -/
theorem playback_loop_counts_witness :
    (∃ l, Player.playback_dispatches 1 .SINGLE 1 exSession.events = some l ∧
       l.map Prod.snd = exSession.events ∧
       l.length = exSession.events.length) ∧
    (∃ l, Player.playback_dispatches 1 .COUNT ((3 : ℕ) : ℚ)
            exSession.events = some l ∧
       l.map Prod.snd = (List.replicate 3 exSession.events).flatten ∧
       l.length = 3 * exSession.events.length) :=
  playback_loop_counts exSession.events 1 1 3 (by decide) (by decide)

theorem ite_pos_eq_max (d : ℚ) : (if 0 < d then d else 0) = max 0 d := by
  by_cases h : 0 < d
  · simp [h, max_eq_right h.le]
  · simp [h, max_eq_left (le_of_not_lt h)]

theorem playback_pass_fst (speed : ℚ) (hs : 0 < speed) :
    ∀ (prev : ℚ) (events : List InputEvent),
      (Player.playback_pass speed prev events).map Prod.fst =
        (events.zip (prev :: events.map InputEvent.timestamp)).map
          (fun pe => max 0 ((pe.1.timestamp - pe.2) / speed)) := by
  intro prev events
  induction events generalizing prev with
  | nil => rfl
  | cons e rest ih =>
    simp only [Player.playback_pass, List.map_cons, List.zip_cons_cons,
               List.map]
    congr 1
    · rw [if_pos hs]
      exact ite_pos_eq_max _
    · exact ih e.timestamp

/-- C4: within one pass, the time waited before dispatching the i-th
event is `(tᵢ - tᵢ₋₁) / speed` with `t₋₁ = 0` for the first event,
clipped at zero (no wait when the difference is not positive). -/
theorem playback_delay_formula (speed : ℚ) (events : List InputEvent)
    (hs : 0 < speed) :
    (Player.playback_pass speed 0 events).map Prod.fst =
      (events.zip ((0 : ℚ) :: events.map InputEvent.timestamp)).map
        (fun pe => max 0 ((pe.1.timestamp - pe.2) / speed)) :=
  playback_pass_fst speed hs 0 events

/-- Witness for C4 at speed 2 over the fixture events. -/
theorem playback_delay_formula_witness :
    (Player.playback_pass 2 0 exSession.events).map Prod.fst =
      (exSession.events.zip
         ((0 : ℚ) :: exSession.events.map InputEvent.timestamp)).map
        (fun pe => max 0 ((pe.1.timestamp - pe.2) / 2)) :=
  playback_delay_formula 2 exSession.events (by norm_num)

/-- C5: event deserialization fails on an unknown kind name or a
missing required field (`t` or `type`), and at the `load` boundary any
read/parse failure or deserialization failure is surfaced as `none`
(never as a crash — `load` is a total function into `Option`). -/
theorem deserialize_failure_surfaced :
    (∀ d : EventDict,
       (d.type_ = none ∨ d.t = none ∨
         (∃ s, d.type_ = some s ∧ EventType.ofName s = none)) →
       ∃ msg, InputEvent.from_dict d = .error msg) ∧
    (∀ now msg : String, RecordingSession.load now (.error msg) = none) ∧
    (∀ (now : String) (d : SessionDict) (msg : String),
       RecordingSession.from_dict now d = .error msg →
       RecordingSession.load now (.ok d) = none) := by
  refine ⟨?_, ?_, ?_⟩
  · intro d h
    cases ht : d.type_ with
    | none => exact ⟨"KeyError: type", by simp [InputEvent.from_dict, ht]⟩
    | some s =>
      cases ho : EventType.ofName s with
      | none =>
        exact ⟨"KeyError: " ++ s, by simp [InputEvent.from_dict, ht, ho]⟩
      | some ty =>
        rcases h with h | h | ⟨s2, hs2, ho2⟩
        · rw [ht] at h; cases h
        · exact ⟨"KeyError: t", by simp [InputEvent.from_dict, ht, ho, h]⟩
        · rw [ht] at hs2
          rw [Option.some.inj hs2] at ho
          rw [ho] at ho2
          cases ho2
  · intro now msg
    rfl
  · intro now d msg h
    simp [RecordingSession.load, h]

/-- Witness for C5: the spec's `BOGUS_KIND` dictionary fails, and a
raised I/O error at the load boundary yields `none`. -/
theorem deserialize_failure_surfaced_witness :
    (∃ msg, InputEvent.from_dict bogusEventDict = .error msg) ∧
    RecordingSession.load "2026-02-03" (.error "IOError") = none :=
  ⟨deserialize_failure_surfaced.1 bogusEventDict
     (Or.inr (Or.inr ⟨"BOGUS_KIND", rfl, rfl⟩)),
   deserialize_failure_surfaced.2.1 "2026-02-03" "IOError"⟩

theorem check_go_eq_find (l : List String) (pressed : Finset String) :
    HotkeyManager.check_go l pressed =
      match l.find? (fun c =>
        decide (HotkeyManager.parse_hotkey c ≠ ∅ ∧
                HotkeyManager.parse_hotkey c ⊆ pressed)) with
      | some c => (some c, ∅)
      | none => (none, pressed) := by
  induction l with
  | nil => rfl
  | cons h rest ih =>
    by_cases hc : HotkeyManager.parse_hotkey h ≠ ∅ ∧
        HotkeyManager.parse_hotkey h ⊆ pressed
    · rw [HotkeyManager.check_go, if_pos hc,
          List.find?_cons_of_pos _ (by simpa using hc)]
    · rw [HotkeyManager.check_go, if_neg hc,
          List.find?_cons_of_neg _ (by simpa using hc), ih]

/-- C6: a key press processed while the listener and dispatch are
enabled fires exactly the first registered combination whose parsed
non-empty token set is contained in the held set (now including the new
token); some callback fires iff such a combination exists; a firing
clears the held set; and a combination strictly larger than the held
set never fires. -/
theorem hotkey_subset_dispatch (m : HotkeyManager) (k : PKey)
    (hen : m.enabled = true) (hpr : m.processing_enabled = true) :
    ((HotkeyManager.on_key_press m k).2 =
       m.hotkeys.find? (fun c =>
         decide (HotkeyManager.parse_hotkey c ≠ ∅ ∧
                 HotkeyManager.parse_hotkey c ⊆
                   insert (HotkeyManager.normalize_key k) m.pressed))) ∧
    (((HotkeyManager.on_key_press m k).2).isSome ↔
       ∃ c ∈ m.hotkeys, HotkeyManager.parse_hotkey c ≠ ∅ ∧
         HotkeyManager.parse_hotkey c ⊆
           insert (HotkeyManager.normalize_key k) m.pressed) ∧
    (∀ c, (HotkeyManager.on_key_press m k).2 = some c →
       (HotkeyManager.on_key_press m k).1.pressed = ∅) ∧
    (∀ c ∈ m.hotkeys,
       insert (HotkeyManager.normalize_key k) m.pressed ⊂
         HotkeyManager.parse_hotkey c →
       (HotkeyManager.on_key_press m k).2 ≠ some c) := by
  have hkey : HotkeyManager.on_key_press m k =
      ({ m with pressed :=
           (HotkeyManager.check_go m.hotkeys
             (insert (HotkeyManager.normalize_key k) m.pressed)).2 },
       (HotkeyManager.check_go m.hotkeys
         (insert (HotkeyManager.normalize_key k) m.pressed)).1) := by
    simp [HotkeyManager.on_key_press, HotkeyManager.check_hotkeys, hen, hpr]
  rw [hkey]
  rw [check_go_eq_find]
  cases hf : m.hotkeys.find? (fun c =>
      decide (HotkeyManager.parse_hotkey c ≠ ∅ ∧
              HotkeyManager.parse_hotkey c ⊆
                insert (HotkeyManager.normalize_key k) m.pressed)) with
  | none =>
    simp only [hf]
    have hnone := List.find?_eq_none.mp hf
    refine ⟨by trivial, ?_, ?_, ?_⟩
    · constructor
      · intro hcontra
        simp at hcontra
      · rintro ⟨c, hm, h1, h2⟩
        have hc := hnone c hm
        rw [decide_eq_true_eq] at hc
        exact absurd ⟨h1, h2⟩ hc
    · intro c hc
      cases hc
    · intro c hm hss hc
      cases hc
  | some c0 =>
    simp only [hf]
    have hp := List.find?_some hf
    rw [decide_eq_true_eq] at hp
    have hmem := List.mem_of_find?_eq_some hf
    refine ⟨by trivial, ?_, ?_, ?_⟩
    · simp only [Option.isSome_some, true_iff]
      exact ⟨c0, hmem, hp⟩
    · intro c _
      trivial
    · intro c hm hss hc
      rw [Option.some.inj hc] at hp
      exact (Finset.ssubset_def.mp hss).2 hp.2

/-- Witness for C6: with `ctrl+shift+r` registered and only `ctrl`
held, pressing shift yields the held set `{ctrl, shift}` — a proper
subset of the combination — so no callback fires. -/
theorem hotkey_subset_dispatch_witness :
    (HotkeyManager.on_key_press exHkManager exShiftKey).2 ≠
      some "<ctrl>+<shift>+r" :=
  (hotkey_subset_dispatch exHkManager exShiftKey rfl rfl).2.2.2
    "<ctrl>+<shift>+r" (by decide) (by decide)

/-- C8: every recorder capture callback is a no-op (state untouched, no
per-event notification) when not recording, or when the channel flag
relevant to that callback is off. -/
theorem recorder_callbacks_gated :
    (∀ (r : Recorder) (now : ℚ) (x y dx dy : ℤ) (bn : String) (pr : Bool),
       r.is_recording = false ∨ r.record_mouse = false →
       Recorder.on_mouse_move r now x y = (r, none) ∧
       Recorder.on_mouse_click r now x y bn pr = (r, none) ∧
       Recorder.on_mouse_scroll r now x y dx dy = (r, none)) ∧
    (∀ (r : Recorder) (now : ℚ) (k : PKey),
       r.is_recording = false ∨ r.record_keyboard = false →
       Recorder.on_key_press r now k = (r, none) ∧
       Recorder.on_key_release r now k = (r, none)) := by
  constructor
  · rintro r now x y dx dy bn pr (h | h) <;>
      exact ⟨by simp [Recorder.on_mouse_move, h],
             by simp [Recorder.on_mouse_click, h],
             by simp [Recorder.on_mouse_scroll, h]⟩
  · rintro r now k (h | h) <;>
      exact ⟨by simp [Recorder.on_key_press, h],
             by simp [Recorder.on_key_release, h]⟩

/-- Witness for C8: an idle recorder ignores a mouse move and a key
press. -/
theorem recorder_callbacks_gated_witness :
    Recorder.on_mouse_move exIdleRecorder 1 10 20 = (exIdleRecorder, none) ∧
    Recorder.on_key_press exIdleRecorder 1 { char := some 'a' } =
      (exIdleRecorder, none) :=
  ⟨(recorder_callbacks_gated.1 exIdleRecorder 1 10 20 0 0 "left" true
      (Or.inl rfl)).1,
   (recorder_callbacks_gated.2 exIdleRecorder 1 { char := some 'a' }
      (Or.inl rfl)).1⟩

theorem eventsFromDicts_error (l : List EventDict) :
    ∀ msg, eventsFromDicts l = .error msg →
      ∃ ed ∈ l, ∃ m2, InputEvent.from_dict ed = .error m2 := by
  induction l with
  | nil => intro msg h; simp [eventsFromDicts] at h
  | cons d rest ih =>
    intro msg h
    rw [eventsFromDicts] at h
    cases hd : InputEvent.from_dict d with
    | error e => exact ⟨d, List.mem_cons_self d rest, e, hd⟩
    | ok ev =>
      rw [hd] at h
      cases hr : eventsFromDicts rest with
      | error e =>
        obtain ⟨ed, hm, m2, hbad⟩ := ih e hr
        exact ⟨ed, List.mem_cons_of_mem d hm, m2, hbad⟩
      | ok evs => rw [hr] at h; cases h

/-- C9: session-level deserialization never fails on missing metadata:
absent `version`, `name`, `description`, `created_at`, `settings` or
`events` keys are replaced by defaults (empty event list, both record
flags true, version `1.0.0`); a failure can only come from an event
entry, and an event entry can only fail for a missing `t` or `type` or
an unknown kind name. -/
theorem session_from_dict_metadata_defaults :
    (∀ (now : String) (d : SessionDict), d.events = none →
       ∃ s, RecordingSession.from_dict now d = .ok s ∧
         s.events = [] ∧
         (d.version = none → s.version = "1.0.0") ∧
         (d.name = none → s.name = "Gravação sem nome") ∧
         (d.description = none → s.description = "") ∧
         (d.created_at = none → s.created_at = now) ∧
         (d.settings = none →
            s.record_mouse = true ∧ s.record_keyboard = true)) ∧
    (∀ (now : String) (d : SessionDict) (msg : String),
       RecordingSession.from_dict now d = .error msg →
       ∃ evs, d.events = some evs ∧
         ∃ ed ∈ evs, ∃ m2, InputEvent.from_dict ed = .error m2) ∧
    (∀ (ed : EventDict) (msg : String),
       InputEvent.from_dict ed = .error msg →
       ed.type_ = none ∨ ed.t = none ∨
         (∃ s, ed.type_ = some s ∧ EventType.ofName s = none)) := by
  refine ⟨?_, ?_, ?_⟩
  · intro now d h
    refine ⟨{ version := d.version.getD "1.0.0",
              name := d.name.getD "Gravação sem nome",
              description := d.description.getD "",
              created_at := d.created_at.getD now,
              record_mouse := (d.settings.getD {}).record_mouse.getD true,
              record_keyboard := (d.settings.getD {}).record_keyboard.getD true,
              events := [] }, ?_, rfl, ?_, ?_, ?_, ?_, ?_⟩
    · simp [RecordingSession.from_dict, h, eventsFromDicts]
    · intro hv; simp [hv]
    · intro hn2; simp [hn2]
    · intro hd; simp [hd]
    · intro hc; simp [hc]
    · intro hs; simp [hs]
  · intro now d msg h
    cases he : d.events with
    | none =>
      exfalso
      simp [RecordingSession.from_dict, he, eventsFromDicts] at h
    | some evs =>
      cases hr : eventsFromDicts evs with
      | error e =>
        exact ⟨evs, rfl, eventsFromDicts_error evs e hr⟩
      | ok l =>
        exfalso
        simp [RecordingSession.from_dict, he, hr] at h
  · intro ed msg h
    cases ht : ed.type_ with
    | none => exact Or.inl rfl
    | some s =>
      cases ho : EventType.ofName s with
      | none => exact Or.inr (Or.inr ⟨s, rfl, ho⟩)
      | some ty =>
        cases hts : ed.t with
        | none => exact Or.inr (Or.inl rfl)
        | some q =>
          exfalso
          simp [InputEvent.from_dict, ht, ho, hts] at h

/-- Witness for C9: the empty dictionary deserializes successfully with
all defaults. -/
theorem session_from_dict_metadata_defaults_witness :
    ∃ s, RecordingSession.from_dict "2026-02-03T00:00:00"
        ({} : SessionDict) = .ok s ∧
      s.events = [] ∧
      (({} : SessionDict).version = none → s.version = "1.0.0") ∧
      (({} : SessionDict).name = none → s.name = "Gravação sem nome") ∧
      (({} : SessionDict).description = none → s.description = "") ∧
      (({} : SessionDict).created_at = none →
         s.created_at = "2026-02-03T00:00:00") ∧
      (({} : SessionDict).settings = none →
         s.record_mouse = true ∧ s.record_keyboard = true) :=
  session_from_dict_metadata_defaults.1 "2026-02-03T00:00:00" {} rfl

/-- C10: an unrecognized button name (case-insensitively not `left`,
`right` or `middle`) resolves to the left button, so replaying a
`MOUSE_CLICK` event with such a name does not fail: it injects the
left button. -/
theorem unknown_button_falls_back_left (bn : String)
    (h : pyLower bn ≠ "left" ∧ pyLower bn ≠ "right" ∧
         pyLower bn ≠ "middle") :
    Player.get_mouse_button bn = .left ∧
    (∀ e : InputEvent, e.event_type = .MOUSE_CLICK → e.button = some bn →
       Player.execute_event e =
         .ok [.set_position e.x e.y,
              if e.pressed = some true then .press_button .left
              else .release_button .left]) := by
  have hb : Player.get_mouse_button bn = .left := by
    simp [Player.get_mouse_button, h.1, h.2.1, h.2.2]
  refine ⟨hb, ?_⟩
  intro e het hbtn
  cases e with
  | mk ts ty x y btn pr k dx dy =>
    simp only at het
    subst het
    simp only at hbtn
    subst hbtn
    simp [Player.execute_event, hb]

/-- Witness for C10: the name `x2` resolves to the left button, and a
click event carrying it replays as a left-button press. -/
theorem unknown_button_falls_back_left_witness :
    Player.get_mouse_button "x2" = .left ∧
    Player.execute_event exWeirdClick =
      .ok [.set_position exWeirdClick.x exWeirdClick.y,
           if exWeirdClick.pressed = some true then .press_button .left
           else .release_button .left] :=
  ⟨(unknown_button_falls_back_left "x2" (by decide)).1,
   (unknown_button_falls_back_left "x2" (by decide)).2 exWeirdClick rfl rfl⟩
